import Mathlib

/-
Verification development for the Telegram auto-reply self-bot (`main.py`).

The development is a shallow embedding of the program's pure logic:
  * the persisted JSON configuration artifact and the Config Store
    (`save_config` / `load_config`),
  * the conversational setup handler (`credential_handler`),
  * the live-update handler (`edit_offline_message`),
  * the auto-reply handler (`auto_reply`),
  * the top-level control flow of `main`.

External effects are made explicit parameters or result fields:
  * the filesystem holding `config.json` is a `Store` value threaded
    through the functions;
  * the Credential Validator (a throwaway `Client("test_session").start()`
    in the source) is a function parameter `validate : Int → String →
    VOutcome`; its failure carries an `ErrKind` (authentication-layer vs
    transport-layer) so that theorems can ask whether the handler
    distinguishes the two — the source's `except Exception` cannot and
    does not;
  * replies sent with `message.reply_text` / `message.reply` are collected
    in a `replies` list; console `print` logging relevant to the claims is
    collected in `logs`;
  * an exception escaping a handler (which would be the only way the
    conversational client could be torn down by the handler) is recorded
    in the Boolean result field `terminated` / `raised`.

Python-specific primitive behaviour (`str.split()`, `str.split(" ", 1)`,
`str.strip()`, `int(...)`, truthiness) is embedded by dedicated `py...`
functions translated from the documented semantics of those primitives,
restricted to the ASCII range actually exercised here.
-/

/-- JSON values, as produced by `json.load` / consumed by `json.dump` in
the source.  Numbers are modelled as integers: the program only ever
stores the integral `api_id`, and no claim concerns floating point. -/
inductive Json where
  | num (n : Int)
  | str (s : String)
  | bool (b : Bool)
  | null
  | arr (elems : List Json)
  | obj (fields : List (String × Json))

/-- Python `dict` lookup (`d[key]` / `d.get(key)`) on the association-list
representation of a JSON object: first binding of the key, if any. -/
def dictGet : List (String × Json) → String → Option Json
  | [], _ => none
  | (k, v) :: rest, key => if k == key then some v else dictGet rest key

/-- Python `d.get(key, default)`. -/
def dictGetD (l : List (String × Json)) (key : String) (d : Json) : Json :=
  (dictGet l key).getD d

/-- Python `d[key] = v`: replace the existing binding in place, or append
a new binding at the end (dicts preserve insertion order). -/
def dictSet : List (String × Json) → String → Json → List (String × Json)
  | [], key, v => [(key, v)]
  | (k, w) :: rest, key, v =>
      if k == key then (k, v) :: rest else (k, w) :: dictSet rest key v

/-- The content of the `config.json` file, at the abstraction level of
`json.load`: either text that fails to parse as JSON (`json.load`
raises), or a parsed JSON value.  `json.dump` always writes well-formed
JSON, so `save_config` only ever produces `wellFormed` content. -/
inductive Stored where
  | corrupt
  | wellFormed (j : Json)

/-- The filesystem slot for `config.json`: `none` when the file does not
exist (`os.path.exists` is false). -/
abbrev Store := Option Stored

/-- The error raised out of `load_config` when the file exists but its
text is not valid JSON (`json.JSONDecodeError` from `json.load`); the
spec calls this `ConfigCorruptError`. -/
inductive ConfigError where
  | configCorrupt

/-- The default offline message written by both setup paths
(`main.py` lines 97 and 138). -/
def defaultOfflineMessage : String :=
  "I am currently offline and will get back to you as soon as possible. Thank you!"

/-- The Configuration record of the spec's data model (the three-field
schema `api_id` / `api_hash` / `offline_message`). -/
structure Config where
  api_id : Int
  api_hash : String
  offline_message : String

/-- The JSON object `save_config` builds from a Configuration
(`main.py` lines 24-28). -/
def Config.toJson (c : Config) : Json :=
  Json.obj [("api_id", Json.num c.api_id),
            ("api_hash", Json.str c.api_hash),
            ("offline_message", Json.str c.offline_message)]

/-- Reading a Configuration record back out of a loaded JSON value, the
way `main` consumes it (`config[\x27api_id\x27]`, `config[\x27api_hash\x27]`,
`config[\x27offline_message\x27]`): all three fields present and well-typed. -/
def Config.fromJson (j : Json) : Option Config :=
  match j with
  | Json.obj fields =>
      match dictGet fields "api_id", dictGet fields "api_hash",
            dictGet fields "offline_message" with
      | some (Json.num n), some (Json.str h), some (Json.str m) => some ⟨n, h, m⟩
      | _, _, _ => none
  | _ => none

/-- `save_config(api_id, api_hash, offline_message)` (`main.py` lines
22-31): fully overwrite the artifact with the three-key JSON object. -/
def save_config (api_id : Int) (api_hash offline_message : String) : Store :=
  some (Stored.wellFormed (Json.obj
    [("api_id", Json.num api_id),
     ("api_hash", Json.str api_hash),
     ("offline_message", Json.str offline_message)]))

/-- The variant of the overwrite performed by `edit_offline_message`,
where the identity fields are whatever JSON values the in-memory dict
holds (Python does not enforce the `int`/`str` type hints of
`save_config`). -/
def save_config_json (idv hv : Json) (offline_message : String) : Store :=
  some (Stored.wellFormed (Json.obj
    [("api_id", idv), ("api_hash", hv),
     ("offline_message", Json.str offline_message)]))

/-- `load_config()` (`main.py` lines 33-38): `None` when the file does
not exist, otherwise the result of `json.load` — the parsed value when
the text is valid JSON (no schema check is performed), and a raised
`json.JSONDecodeError` (modelled as `ConfigError.configCorrupt`) when it
is not. -/
def load_config : Store → Except ConfigError (Option Json)
  | none => Except.ok none
  | some Stored.corrupt => Except.error ConfigError.configCorrupt
  | some (Stored.wellFormed j) => Except.ok (some j)

/-- The three-key schema of the persisted artifact as §6 of the spec
states it: exactly the keys `api_id` (number), `api_hash` (string),
`offline_message` (string).  This definition follows the spec's words,
not the source (the source never checks the schema); it exists to state
claim C8 against `load_config`. -/
def matchesSpecSchema (j : Json) : Bool :=
  match j with
  | Json.obj fields =>
      (fields.length == 3) &&
      (match dictGet fields "api_id" with
       | some (Json.num _) => true
       | _ => false) &&
      (match dictGet fields "api_hash" with
       | some (Json.str _) => true
       | _ => false) &&
      (match dictGet fields "offline_message" with
       | some (Json.str _) => true
       | _ => false)
  | _ => false

/-- Python truthiness (`if not config:`) on a JSON value. -/
def pyTruthy : Json → Bool
  | Json.num n => n != 0
  | Json.str s => !s.isEmpty
  | Json.bool b => b
  | Json.null => false
  | Json.arr l => !l.isEmpty
  | Json.obj l => !l.isEmpty

/-- Python `str(...)` of a JSON value as interpolated into log lines.
Strings and integers (the cases the program can actually produce) are
exact; composite values are abbreviated, as no claim inspects them. -/
def pyStr : Json → String
  | Json.str s => s
  | Json.num n => toString n
  | Json.bool true => "True"
  | Json.bool false => "False"
  | Json.null => "None"
  | Json.arr _ => "<list>"
  | Json.obj _ => "<dict>"

/-- Helper for `pySplitWs`: accumulate the current token (reversed) while
scanning; whitespace ends a token, empty tokens are dropped — the
semantics of Python `str.split()` with no separator argument. -/
def pySplitWsAux : List Char → List Char → List String
  | [], acc => if acc.isEmpty then [] else [String.mk acc.reverse]
  | c :: rest, acc =>
      if c.isWhitespace then
        if acc.isEmpty then pySplitWsAux rest []
        else String.mk acc.reverse :: pySplitWsAux rest []
      else pySplitWsAux rest (c :: acc)

/-- Python `str.split()` (no arguments): split on runs of whitespace,
discarding leading/trailing whitespace and empty tokens. -/
def pySplitWs (s : String) : List String :=
  pySplitWsAux s.toList []

/-- Helper for `pySplitOnce`: split a character list at the first literal
space character, if one occurs. -/
def splitAtSpace : List Char → Option (List Char × List Char)
  | [] => none
  | ' ' :: rest => some ([], rest)
  | c :: rest => (splitAtSpace rest).map (fun p => (c :: p.1, p.2))

/-- Python `s.split(" ", 1)` as used by `edit_offline_message`: `none`
when the text contains no space (so that `[1]` raises `IndexError`),
otherwise the parts before and after the first space. -/
def pySplitOnce (s : String) : Option (String × String) :=
  (splitAtSpace s.toList).map (fun p => (String.mk p.1, String.mk p.2))

/-- Python `str.strip()`: remove whitespace from both ends. -/
def pyStrip (s : String) : String :=
  String.mk (((s.toList.dropWhile Char.isWhitespace).reverse.dropWhile
      Char.isWhitespace).reverse)

/-- Helper for `pyInt`: after an initial digit has been consumed, accept
further digits with single underscores allowed strictly between digits
(Python `int(...)` accepts `"1_000"` but rejects `"1__0"`, `"_1"`,
`"1_"`). -/
def pyIntGo : List Char → Nat → Option Nat
  | [], acc => some acc
  | '_' :: c :: rest, acc =>
      if c.isDigit then pyIntGo rest (acc * 10 + (c.toNat - 48)) else none
  | c :: rest, acc =>
      if c.isDigit then pyIntGo rest (acc * 10 + (c.toNat - 48)) else none

/-- Helper for `pyInt`: an unsigned integer literal must start with a
digit. -/
def pyIntCore : List Char → Option Nat
  | [] => none
  | c :: rest => if c.isDigit then pyIntGo rest (c.toNat - 48) else none

/-- Python `int(token)` on a whitespace-free token: optional sign
followed by ASCII digits (with Python's between-digit underscores);
`none` models a raised `ValueError`. -/
def pyInt (s : String) : Option Int :=
  match s.toList with
  | [] => none
  | '+' :: rest => (pyIntCore rest).map (fun n => (n : Int))
  | '-' :: rest => (pyIntCore rest).map (fun n => -(n : Int))
  | cs => (pyIntCore cs).map (fun n => (n : Int))

/-- Python `message.text.startswith("/")`. -/
def startsWithSlash (s : String) : Bool :=
  match s.toList with
  | '/' :: _ => true
  | _ => false

/-- Outcome of the Credential Validator (the throwaway
`Client("test_session").start()` / `.stop()` attempt).  A failure carries
the layer it arose from so that theorems can ask whether the caller
distinguishes authentication-layer from transport-layer failures. -/
inductive ErrKind where
  | auth
  | transport

/-- Result of one validation attempt. -/
inductive VOutcome where
  | ok
  | err (kind : ErrKind) (msg : String)

/-- How the `try:` body of `credential_handler` finishes: normal fall
through / return, a `ValueError` from `int(api_id_str)`, or the
deliberately raised `SetupCompleteError`. -/
inductive BodyExit where
  | normal
  | valueError
  | setupComplete

/-- State after running the `try:` body of `credential_handler`
(`main.py` lines 73-102): replies sent so far, the store, whether the
Validator was invoked, and how the body finished. -/
structure BodyResult where
  replies : List String
  store : Store
  validatorCalled : Bool
  exit : BodyExit

/-- The `try:` body of `credential_handler` (`main.py` lines 73-102),
translated clause by clause:
  * texts starting with `/` are ignored (line 74);
  * a whitespace-split token count other than 2 replies with the
    format message and returns (lines 78-81);
  * `int(api_id_str)` may raise `ValueError` (line 84) — before the
    "Validating" reply;
  * otherwise the Validator runs; on failure the rejection notice is
    sent and the body returns (lines 92-95); on success the default
    configuration is saved, two confirmations are sent, and
    `SetupCompleteError` is raised (lines 97-102). -/
def credentialBody (validate : Int → String → VOutcome) (text : String)
    (st : Store) : BodyResult :=
  if startsWithSlash text then
    { replies := [], store := st, validatorCalled := false, exit := BodyExit.normal }
  else
    match pySplitWs text with
    | [api_id_str, api_hash] =>
        match pyInt api_id_str with
        | none =>
            { replies := [], store := st, validatorCalled := false,
              exit := BodyExit.valueError }
        | some api_id =>
            match validate api_id api_hash with
            | VOutcome.ok =>
                { replies := ["Credentials received. Validating...",
                              "Credentials saved successfully! The bot is now configured.",
                              "Please restart the main script to start your auto-reply bot."],
                  store := save_config api_id api_hash defaultOfflineMessage,
                  validatorCalled := true, exit := BodyExit.setupComplete }
            | VOutcome.err _ _ =>
                { replies := ["Credentials received. Validating...",
                              "Invalid API ID or API Hash. Please check them and try again."],
                  store := st, validatorCalled := true, exit := BodyExit.normal }
    | _ =>
        { replies := ["Invalid format. Please send `API_ID API_HASH`."],
          store := st, validatorCalled := false, exit := BodyExit.normal }

/-- Observable result of one `credential_handler` invocation.
`terminated` records whether an exception escapes the handler — the only
way the raised `SetupCompleteError` could reach `main`'s
`except SetupCompleteError` clause and shut the process down cleanly. -/
structure HandlerResult where
  replies : List String
  store : Store
  validatorCalled : Bool
  terminated : Bool

/-- `credential_handler` (`main.py` lines 71-107): the `try:` body wrapped
in its two `except` clauses.  `except ValueError` (line 104) replies with
the non-numeric-id message.  `except Exception` (line 106) catches every
other `Exception` — including the `SetupCompleteError` raised on line 102,
since `SetupCompleteError` subclasses `Exception` — and replies
`"An error occurred: {e}"`.  Consequently no exception ever escapes the
handler and `terminated` is `false` on every path. -/
def credential_handler (validate : Int → String → VOutcome) (text : String)
    (st : Store) : HandlerResult :=
  let b := credentialBody validate text st
  match b.exit with
  | BodyExit.normal =>
      { replies := b.replies, store := b.store,
        validatorCalled := b.validatorCalled, terminated := false }
  | BodyExit.valueError =>
      { replies := b.replies ++ ["Invalid API ID. It must be a number."],
        store := b.store, validatorCalled := b.validatorCalled,
        terminated := false }
  | BodyExit.setupComplete =>
      { replies := b.replies ++ ["An error occurred: Setup is complete. Exiting cleanly."],
        store := b.store, validatorCalled := b.validatorCalled,
        terminated := false }

/-- Handling a sequence of conversational submissions, threading the
store: the setup client stays up (no handler terminates it, see
`credential_handler`), so each incoming message runs the handler on the
store left by the previous one. -/
def runConversational (validate : Int → String → VOutcome)
    (msgs : List String) (st : Store) : Store :=
  msgs.foldl (fun s text => (credential_handler validate text s).store) st

/-- Observable result of one `edit_offline_message` invocation: the
in-memory config dict afterwards, the store afterwards, and the replies
sent. -/
structure EditResult where
  config : List (String × Json)
  store : Store
  replies : List String

/-- `edit_offline_message` (`main.py` lines 164-175), translated clause
by clause on the in-memory config dict:
  * `message.text.split(" ", 1)[1]` raises `IndexError` when the text
    contains no space — caught, usage-guidance reply, no mutation;
  * otherwise the remainder is `.strip()`ped and assigned to
    `config["offline_message"]` unconditionally (there is no
    empty-string check), then `save_config(config["api_id"],
    config["api_hash"], new_message)` persists it and a confirmation
    quoting the applied value is sent;
  * a missing identity key makes the `config[...]` subscript raise
    `KeyError`, caught by `except Exception` with an error reply — after
    the in-memory mutation has already happened. -/
def edit_offline_message (text : String) (config : List (String × Json))
    (st : Store) : EditResult :=
  match pySplitOnce text with
  | none =>
      { config := config, store := st,
        replies := ["Please provide a new message after the /editoff command.\nExample: `/editoff I will reply later.`"] }
  | some (_, rest) =>
      let new_message := pyStrip rest
      let config2 := dictSet config "offline_message" (Json.str new_message)
      match dictGet config2 "api_id" with
      | none =>
          { config := config2, store := st,
            replies := ["An error occurred: \x27api_id\x27"] }
      | some idv =>
          match dictGet config2 "api_hash" with
          | none =>
              { config := config2, store := st,
                replies := ["An error occurred: \x27api_hash\x27"] }
          | some hv =>
              { config := config2,
                store := save_config_json idv hv new_message,
                replies := ["Offline message updated successfully to: \n`"
                  ++ new_message ++ "`"] }

/-- Observable result of one `auto_reply` invocation: the text the
handler tries to send, whether it was delivered, the console log lines,
and whether an exception escaped the handler. -/
structure AutoReplyResult where
  replyText : Json
  replySent : Bool
  logs : List String
  raised : Bool

/-- `auto_reply` (`main.py` lines 178-186), for one incoming private
non-self message.  `sendFailure` is the outcome of the external
`message.reply(...)` call: `none` for a successful delivery, `some e`
when the client raised (e.g. the counterpart blocked the account).  The
whole body sits in `try: ... except Exception as e: print(...)`, so a
delivery failure is logged and swallowed and no exception escapes
(`raised` is `false` on every path).  The reply text is
`config.get("offline_message", "I am currently offline.")`.  The fixed
3-second pacing delay before the reply is a real-time effect outside
this embedding and is not modelled. -/
def auto_reply (config : List (String × Json)) (sendFailure : Option String)
    (senderName : String) : AutoReplyResult :=
  let current := dictGetD config "offline_message" (Json.str "I am currently offline.")
  match sendFailure with
  | none =>
      { replyText := current, replySent := true,
        logs := ["Replied to " ++ senderName ++ " with: \x27"
          ++ pyStr current ++ "\x27"],
        raised := false }
  | some e =>
      { replyText := current, replySent := false,
        logs := ["An error occurred: " ++ e],
        raised := false }

/-- How a run of `main` proceeds after the configuration-loading phase. -/
inductive MainOutcome where
  | startsAutoReply (config : Json)
  | exitError
  | conversationalPath (bot_token : String)
  | crashed

/-- The setup branch of `main` (`main.py` lines 121-154), entered when
the loaded configuration is falsy.  `api_id_str` and `api_hash` are the
operator's terminal inputs; Python's `if api_id_str and api_hash:`
selects the terminal path exactly when both are non-empty.  On the
terminal path, `int(api_id_str)` raising `ValueError` or the Validator
failing are both caught by `except (ValueError, Exception)` and lead to
`sys.exit(1)` (`exitError`); on success the default configuration is
saved, reloaded, and the run proceeds to start the auto-reply client.
An empty input defers to the conversational path (`conversationalPath`),
where the setup client idles awaiting submissions. -/
def mainSetup (st : Store) (bot_token api_id_str api_hash : String)
    (validate : Int → String → VOutcome) : MainOutcome × Store :=
  if !api_id_str.isEmpty && !api_hash.isEmpty then
    match pyInt api_id_str with
    | none => (MainOutcome.exitError, st)
    | some api_id =>
        match validate api_id api_hash with
        | VOutcome.ok =>
            let st2 := save_config api_id api_hash defaultOfflineMessage
            match load_config st2 with
            | Except.ok (some j) => (MainOutcome.startsAutoReply j, st2)
            | _ => (MainOutcome.crashed, st2)
        | VOutcome.err _ _ => (MainOutcome.exitError, st)
  else (MainOutcome.conversationalPath bot_token, st)

/-- The control flow of `main` (`main.py` lines 117-154) up to the point
where the auto-reply client is created.  A `json.JSONDecodeError` from
`load_config` propagates uncaught (`crashed`).  A truthy loaded value
skips setup and proceeds straight to the auto-reply client; a falsy one
(`None`, but also e.g. an empty JSON object, per Python truthiness)
enters the setup branch.  (Named `mainFlow` because `main` is a
reserved entry-point name in Lean.) -/
def mainFlow (st : Store) (bot_token api_id_str api_hash : String)
    (validate : Int → String → VOutcome) : MainOutcome × Store :=
  match load_config st with
  | Except.error _ => (MainOutcome.crashed, st)
  | Except.ok none => mainSetup st bot_token api_id_str api_hash validate
  | Except.ok (some j) =>
      if pyTruthy j then (MainOutcome.startsAutoReply j, st)
      else mainSetup st bot_token api_id_str api_hash validate

example : pyInt "1_2" = some 12 := rfl
example : pyInt "-42" = some (-42) := rfl
example : pyInt "1__2" = none := rfl
example : pySplitWs "  a   b " = ["a", "b"] := rfl
example : pySplitOnce "/editoff " = some ("/editoff", "") := rfl
example : pyStrip "  x " = "x" := rfl

/-- Case analysis of `credential_handler`: a non-command text whose
whitespace split does not have exactly two tokens gets the format
complaint and changes nothing. -/
theorem handler_wrong_count (validate : Int → String → VOutcome)
    (text : String) (st : Store)
    (hs : startsWithSlash text = false)
    (h2 : (pySplitWs text).length ≠ 2) :
    credential_handler validate text st =
      { replies := ["Invalid format. Please send `API_ID API_HASH`."],
        store := st, validatorCalled := false, terminated := false } := by
  have hb : credentialBody validate text st =
      { replies := ["Invalid format. Please send `API_ID API_HASH`."],
        store := st, validatorCalled := false, exit := BodyExit.normal } := by
    unfold credentialBody
    rw [hs]
    rcases hl : pySplitWs text with _ | ⟨a, _ | ⟨b, _ | ⟨c, t⟩⟩⟩ <;>
      first
        | rfl
        | (exfalso; rw [hl] at h2; exact h2 rfl)
  simp [credential_handler, hb]

/-- Case analysis of `credential_handler`: texts starting with `/` are
ignored outright (line 74-76 of the source). -/
theorem handler_command (validate : Int → String → VOutcome)
    (text : String) (st : Store)
    (hs : startsWithSlash text = true) :
    credential_handler validate text st =
      { replies := [], store := st, validatorCalled := false,
        terminated := false } := by
  have hb : credentialBody validate text st =
      { replies := [], store := st, validatorCalled := false,
        exit := BodyExit.normal } := by
    unfold credentialBody
    rw [hs]
    rfl
  simp [credential_handler, hb]

/-- Case analysis of `credential_handler`: two tokens with a non-numeric
first token raise `ValueError` at `int(api_id_str)` before any reply;
the `except ValueError` clause replies and nothing else changes. -/
theorem handler_bad_id (validate : Int → String → VOutcome)
    (text : String) (st : Store) (a b : String)
    (hs : startsWithSlash text = false)
    (hp : pySplitWs text = [a, b])
    (hn : pyInt a = none) :
    credential_handler validate text st =
      { replies := ["Invalid API ID. It must be a number."],
        store := st, validatorCalled := false, terminated := false } := by
  have hb : credentialBody validate text st =
      { replies := [], store := st, validatorCalled := false,
        exit := BodyExit.valueError } := by
    unfold credentialBody
    rw [hs, hp]
    simp [hn]
  simp [credential_handler, hb]

/-- Case analysis of `credential_handler`: a well-formed pair the
Validator rejects gets the "Validating" reply then the rejection notice;
the store is untouched and the handler returns normally. -/
theorem handler_rejected (validate : Int → String → VOutcome)
    (text : String) (st : Store) (a b : String) (n : Int)
    (kind : ErrKind) (msg : String)
    (hs : startsWithSlash text = false)
    (hp : pySplitWs text = [a, b])
    (hn : pyInt a = some n)
    (hv : validate n b = VOutcome.err kind msg) :
    credential_handler validate text st =
      { replies := ["Credentials received. Validating...",
                    "Invalid API ID or API Hash. Please check them and try again."],
        store := st, validatorCalled := true, terminated := false } := by
  have hb : credentialBody validate text st =
      { replies := ["Credentials received. Validating...",
                    "Invalid API ID or API Hash. Please check them and try again."],
        store := st, validatorCalled := true, exit := BodyExit.normal } := by
    unfold credentialBody
    rw [hs, hp]
    simp [hn, hv]
  simp [credential_handler, hb]

/-- Case analysis of `credential_handler`: a well-formed pair the
Validator accepts saves the default configuration and sends the two
confirmations, but the raised `SetupCompleteError` is caught by the
handler's own `except Exception` clause, which adds the
"An error occurred" reply; nothing escapes the handler. -/
theorem handler_accepted (validate : Int → String → VOutcome)
    (text : String) (st : Store) (a b : String) (n : Int)
    (hs : startsWithSlash text = false)
    (hp : pySplitWs text = [a, b])
    (hn : pyInt a = some n)
    (hv : validate n b = VOutcome.ok) :
    credential_handler validate text st =
      { replies := ["Credentials received. Validating...",
                    "Credentials saved successfully! The bot is now configured.",
                    "Please restart the main script to start your auto-reply bot.",
                    "An error occurred: Setup is complete. Exiting cleanly."],
        store := save_config n b defaultOfflineMessage,
        validatorCalled := true, terminated := false } := by
  have hb : credentialBody validate text st =
      { replies := ["Credentials received. Validating...",
                    "Credentials saved successfully! The bot is now configured.",
                    "Please restart the main script to start your auto-reply bot."],
        store := save_config n b defaultOfflineMessage,
        validatorCalled := true, exit := BodyExit.setupComplete } := by
    unfold credentialBody
    rw [hs, hp]
    simp [hn, hv]
  simp [credential_handler, hb]

/-- If the Validator never accepts, no single handler invocation changes
the store. -/
theorem handler_store_of_not_ok (validate : Int → String → VOutcome)
    (hrej : ∀ a b, validate a b ≠ VOutcome.ok) (text : String) (st : Store) :
    (credential_handler validate text st).store = st := by
  cases hsl : startsWithSlash text
  · rcases hl : pySplitWs text with _ | ⟨a, _ | ⟨b, _ | ⟨c, t⟩⟩⟩
    · rw [handler_wrong_count validate text st hsl (by rw [hl]; simp)]
    · rw [handler_wrong_count validate text st hsl (by rw [hl]; simp)]
    · cases hn : pyInt a with
      | none => rw [handler_bad_id validate text st a b hsl hl hn]
      | some n =>
          cases hv : validate n b with
          | ok => exact absurd hv (hrej n b)
          | err kind msg =>
              rw [handler_rejected validate text st a b n kind msg hsl hl hn hv]
    · rw [handler_wrong_count validate text st hsl (by rw [hl]; simp)]
  · rw [handler_command validate text st hsl]

/-- If the Validator never accepts, no sequence of conversational
submissions changes the store. -/
theorem runConversational_store_of_not_ok (validate : Int → String → VOutcome)
    (hrej : ∀ a b, validate a b ≠ VOutcome.ok) (msgs : List String) :
    ∀ st : Store, runConversational validate msgs st = st := by
  induction msgs with
  | nil => intro st; rfl
  | cons m t ih =>
      intro st
      show List.foldl _ st (m :: t) = st
      rw [List.foldl_cons, handler_store_of_not_ok validate hrej m st]
      exact ih st

/-- Updating one key of a dict leaves lookups of a different key
unchanged. -/
theorem dictGet_dictSet_ne (l : List (String × Json)) (key k2 : String)
    (v : Json) (h : key ≠ k2) :
    dictGet (dictSet l key v) k2 = dictGet l k2 := by
  induction l with
  | nil =>
      have hf : (key == k2) = false := beq_eq_false_iff_ne.mpr h
      simp [dictSet, dictGet, hf]
  | cons p t ih =>
      obtain ⟨k, w⟩ := p
      by_cases hk : (k == key) = true
      · have hkk : k = key := eq_of_beq hk
        subst hkk
        have hf : (k == k2) = false := beq_eq_false_iff_ne.mpr h
        simp [dictSet, dictGet, hk, hf]
      · simp [dictSet, dictGet, hk, ih]

/-- Claim C1 (settled as a code bug, evaluated at the failing input): in
the conversational setup path, when the Validator accepts the submitted
pair `123456 0123456789abcdef0123456789abcdef`, the handler does persist
a Configuration with the default offline message and does send the two
confirmation replies — but the `SetupCompleteError` raised as the clean
shutdown signal is caught by the handler's own `except Exception` clause
(it subclasses `Exception`), which sends the counterpart
"An error occurred: Setup is complete. Exiting cleanly." instead of
letting the signal escape: `terminated = false`, so the conversational
client and the process are never terminated with status 0, contradicting
the claim, the exception's own docstring, and the dead
`except SetupCompleteError` handler in `main`. -/
theorem c1_conversational_success_swallows_exit :
    credential_handler (fun _ _ => VOutcome.ok)
      "123456 0123456789abcdef0123456789abcdef" none =
      { replies := ["Credentials received. Validating...",
                    "Credentials saved successfully! The bot is now configured.",
                    "Please restart the main script to start your auto-reply bot.",
                    "An error occurred: Setup is complete. Exiting cleanly."],
        store := save_config 123456 "0123456789abcdef0123456789abcdef"
          defaultOfflineMessage,
        validatorCalled := true,
        terminated := false } := rfl

/-- Claim C2: for every valid Configuration record, `save` followed by
`load` yields a record equal to the one saved: the loaded JSON value is
exactly the saved object, and reading the three fields back out of it
reproduces the record. -/
theorem c2_save_load_roundtrip (c : Config) :
    load_config (save_config c.api_id c.api_hash c.offline_message) =
      Except.ok (some (Config.toJson c)) ∧
    Config.fromJson (Config.toJson c) = some c :=
  ⟨rfl, rfl⟩

/-- Claim C3: for every malformed non-command conversational submission
(whitespace-split token count different from 2, or a non-numeric first
token), the handler replies with the problem-specific message, the store
is untouched and the handler neither terminates nor calls the Validator
(the flow stays awaiting a credential message). -/
theorem c3_malformed_keeps_awaiting (validate : Int → String → VOutcome)
    (text : String) (st : Store)
    (hs : startsWithSlash text = false)
    (hm : (pySplitWs text).length ≠ 2 ∨
      ∃ a b, pySplitWs text = [a, b] ∧ pyInt a = none) :
    (credential_handler validate text st).validatorCalled = false ∧
    (credential_handler validate text st).store = st ∧
    (credential_handler validate text st).terminated = false ∧
    ((pySplitWs text).length ≠ 2 →
      (credential_handler validate text st).replies =
        ["Invalid format. Please send `API_ID API_HASH`."]) ∧
    (∀ a b, pySplitWs text = [a, b] → pyInt a = none →
      (credential_handler validate text st).replies =
        ["Invalid API ID. It must be a number."]) := by
  rcases hm with h2 | ⟨a, b, hp, hn⟩
  · rw [handler_wrong_count validate text st hs h2]
    refine ⟨rfl, rfl, rfl, fun _ => rfl, ?_⟩
    intro a b hp hn
    exfalso; rw [hp] at h2; exact h2 rfl
  · rw [handler_bad_id validate text st a b hs hp hn]
    refine ⟨rfl, rfl, rfl, ?_, fun _ _ _ _ => rfl⟩
    intro h2; exfalso; rw [hp] at h2; exact h2 rfl

/-- Witness for C3 at the concrete one-token submission `"hello"`. -/
theorem c3_witness :
    startsWithSlash "hello" = false ∧
    ((pySplitWs "hello").length ≠ 2 ∨
      ∃ a b, pySplitWs "hello" = [a, b] ∧ pyInt a = none) ∧
    ((credential_handler (fun _ _ => VOutcome.ok) "hello" none).validatorCalled = false ∧
     (credential_handler (fun _ _ => VOutcome.ok) "hello" none).store = none ∧
     (credential_handler (fun _ _ => VOutcome.ok) "hello" none).terminated = false ∧
     ((pySplitWs "hello").length ≠ 2 →
       (credential_handler (fun _ _ => VOutcome.ok) "hello" none).replies =
         ["Invalid format. Please send `API_ID API_HASH`."]) ∧
     (∀ a b, pySplitWs "hello" = [a, b] → pyInt a = none →
       (credential_handler (fun _ _ => VOutcome.ok) "hello" none).replies =
         ["Invalid API ID. It must be a number."])) :=
  ⟨rfl, Or.inl (by decide),
   c3_malformed_keeps_awaiting (fun _ _ => VOutcome.ok) "hello" none rfl
     (Or.inl (by decide))⟩

/-- Claim C4: a well-formed pair the Validator rejects gets the
rejection notice, the handler returns normally with the store untouched
(the flow loops back to awaiting), and — since every invocation with a
never-accepting Validator leaves the store unchanged — no sequence of
submissions, of any length, ever persists a Configuration. -/
theorem c4_rejected_pair_loops_never_persists
    (validate : Int → String → VOutcome)
    (text : String) (st : Store) (a b : String) (n : Int)
    (kind : ErrKind) (msg : String)
    (hs : startsWithSlash text = false)
    (hp : pySplitWs text = [a, b])
    (hn : pyInt a = some n)
    (hv : validate n b = VOutcome.err kind msg) :
    credential_handler validate text st =
      { replies := ["Credentials received. Validating...",
                    "Invalid API ID or API Hash. Please check them and try again."],
        store := st, validatorCalled := true, terminated := false } ∧
    ((∀ x y, validate x y ≠ VOutcome.ok) →
      ∀ (msgs : List String) (st2 : Store),
        runConversational validate msgs st2 = st2) :=
  ⟨handler_rejected validate text st a b n kind msg hs hp hn hv,
   fun hrej msgs st2 => runConversational_store_of_not_ok validate hrej msgs st2⟩

/-- Witness for C4 at the concrete rejected submission `"123456 abc"`. -/
theorem c4_witness :
    startsWithSlash "123456 abc" = false ∧
    pySplitWs "123456 abc" = ["123456", "abc"] ∧
    pyInt "123456" = some 123456 ∧
    (fun (_ : Int) (_ : String) => VOutcome.err ErrKind.auth "bad") 123456 "abc" =
      VOutcome.err ErrKind.auth "bad" ∧
    (credential_handler (fun _ _ => VOutcome.err ErrKind.auth "bad") "123456 abc" none =
      { replies := ["Credentials received. Validating...",
                    "Invalid API ID or API Hash. Please check them and try again."],
        store := none, validatorCalled := true, terminated := false } ∧
     ((∀ x y, (fun (_ : Int) (_ : String) => VOutcome.err ErrKind.auth "bad") x y ≠ VOutcome.ok) →
       ∀ (msgs : List String) (st2 : Store),
         runConversational (fun _ _ => VOutcome.err ErrKind.auth "bad") msgs st2 = st2)) :=
  ⟨rfl, rfl, rfl, rfl,
   c4_rejected_pair_loops_never_persists
     (fun _ _ => VOutcome.err ErrKind.auth "bad") "123456 abc" none
     "123456" "abc" 123456 ErrKind.auth "bad" rfl rfl rfl rfl⟩

/-- Counterexample for claim C5: for the self-issued command
`"/editoff "` (the command followed by a single space, so the argument
trims to the empty string), the claim predicts a missing-argument
rejection with no mutation; the code instead updates `offline_message`
to the empty string in memory, persists it, and replies with a success
confirmation quoting the empty value. -/
theorem c5_empty_argument_counterexample :
    (edit_offline_message "/editoff "
        [("api_id", Json.num 1), ("api_hash", Json.str "h"),
         ("offline_message", Json.str "old")]
        (save_config 1 "h" "old")).config =
      [("api_id", Json.num 1), ("api_hash", Json.str "h"),
       ("offline_message", Json.str "")] ∧
    (edit_offline_message "/editoff "
        [("api_id", Json.num 1), ("api_hash", Json.str "h"),
         ("offline_message", Json.str "old")]
        (save_config 1 "h" "old")).store =
      some (Stored.wellFormed (Json.obj
        [("api_id", Json.num 1), ("api_hash", Json.str "h"),
         ("offline_message", Json.str "")])) ∧
    (edit_offline_message "/editoff "
        [("api_id", Json.num 1), ("api_hash", Json.str "h"),
         ("offline_message", Json.str "old")]
        (save_config 1 "h" "old")).replies =
      ["Offline message updated successfully to: \n``"] :=
  ⟨rfl, rfl, rfl⟩

/-- Claim C5 as amended: for a configuration holding both identity
fields, if the command text contains no space (no argument segment
follows, so `split(" ", 1)[1]` raises `IndexError`), a usage-guidance
reply is sent and nothing is mutated; otherwise the text after the first
space is trimmed of surrounding whitespace and applied unconditionally —
the empty string included — updating `offline_message` in memory,
persisting it, and replying with the applied value. -/
theorem c5_edit_offline_message_amended
    (text : String) (config : List (String × Json)) (st : Store)
    (idv hv : Json)
    (hid : dictGet config "api_id" = some idv)
    (hha : dictGet config "api_hash" = some hv) :
    (pySplitOnce text = none →
      edit_offline_message text config st =
        { config := config, store := st,
          replies := ["Please provide a new message after the /editoff command.\nExample: `/editoff I will reply later.`"] }) ∧
    (∀ pre rest, pySplitOnce text = some (pre, rest) →
      edit_offline_message text config st =
        { config := dictSet config "offline_message" (Json.str (pyStrip rest)),
          store := save_config_json idv hv (pyStrip rest),
          replies := ["Offline message updated successfully to: \n`"
            ++ pyStrip rest ++ "`"] }) := by
  constructor
  · intro hnone
    simp only [edit_offline_message, hnone]
  · intro pre rest hsome
    have hid2 : dictGet (dictSet config "offline_message"
        (Json.str (pyStrip rest))) "api_id" = some idv := by
      rw [dictGet_dictSet_ne config "offline_message" "api_id"
        (Json.str (pyStrip rest)) (by decide)]
      exact hid
    have hha2 : dictGet (dictSet config "offline_message"
        (Json.str (pyStrip rest))) "api_hash" = some hv := by
      rw [dictGet_dictSet_ne config "offline_message" "api_hash"
        (Json.str (pyStrip rest)) (by decide)]
      exact hha
    simp only [edit_offline_message, hsome, hid2, hha2]

/-- Witness for the amended C5 at the concrete command
`"/editoff Back in 5"`. -/
theorem c5_witness :
    dictGet [("api_id", Json.num 1), ("api_hash", Json.str "h"),
      ("offline_message", Json.str "old")] "api_id" = some (Json.num 1) ∧
    dictGet [("api_id", Json.num 1), ("api_hash", Json.str "h"),
      ("offline_message", Json.str "old")] "api_hash" = some (Json.str "h") ∧
    ((pySplitOnce "/editoff Back in 5" = none →
      edit_offline_message "/editoff Back in 5"
        [("api_id", Json.num 1), ("api_hash", Json.str "h"),
         ("offline_message", Json.str "old")] none =
        { config := [("api_id", Json.num 1), ("api_hash", Json.str "h"),
            ("offline_message", Json.str "old")],
          store := none,
          replies := ["Please provide a new message after the /editoff command.\nExample: `/editoff I will reply later.`"] }) ∧
     (∀ pre rest, pySplitOnce "/editoff Back in 5" = some (pre, rest) →
      edit_offline_message "/editoff Back in 5"
        [("api_id", Json.num 1), ("api_hash", Json.str "h"),
         ("offline_message", Json.str "old")] none =
        { config := dictSet [("api_id", Json.num 1), ("api_hash", Json.str "h"),
            ("offline_message", Json.str "old")] "offline_message"
            (Json.str (pyStrip rest)),
          store := save_config_json (Json.num 1) (Json.str "h") (pyStrip rest),
          replies := ["Offline message updated successfully to: \n`"
            ++ pyStrip rest ++ "`"] })) :=
  ⟨rfl, rfl,
   c5_edit_offline_message_amended "/editoff Back in 5"
     [("api_id", Json.num 1), ("api_hash", Json.str "h"),
      ("offline_message", Json.str "old")] none
     (Json.num 1) (Json.str "h") rfl rfl⟩

/-- Claim C6: for every incoming message handled by `auto_reply`, a
failure while sending the reply is logged and swallowed inside the
handler — no exception escapes on either the failure or the success
path, so the listening loop never crashes because of a reply-delivery
failure. -/
theorem c6_reply_failure_swallowed (config : List (String × Json))
    (senderName e : String) :
    (auto_reply config (some e) senderName).raised = false ∧
    (auto_reply config (some e) senderName).logs =
      ["An error occurred: " ++ e] ∧
    (auto_reply config (some e) senderName).replySent = false ∧
    (auto_reply config none senderName).raised = false :=
  ⟨rfl, rfl, rfl, rfl⟩

/-- Counterexample for claim C7: a transport-layer validation failure
("no network") is reported to the counterpart with the very same
"Invalid API ID or API Hash" reply as an authentication-layer failure —
the handler's result is identical for the two kinds, so transport
failures are not distinguished as `ValidatorUnavailable`. -/
theorem c7_transport_counterexample :
    (credential_handler (fun _ _ => VOutcome.err ErrKind.transport "no network")
        "123456 0123456789abcdef0123456789abcdef" none).replies =
      ["Credentials received. Validating...",
       "Invalid API ID or API Hash. Please check them and try again."] ∧
    credential_handler (fun _ _ => VOutcome.err ErrKind.transport "no network")
        "123456 0123456789abcdef0123456789abcdef" none =
      credential_handler (fun _ _ => VOutcome.err ErrKind.auth "wrong hash")
        "123456 0123456789abcdef0123456789abcdef" none :=
  ⟨rfl, rfl⟩

/-- Claim C7 as amended: the handler's single `except Exception` clause
maps every validation failure — authentication-layer and transport-layer
alike — to the same invalid-credentials outcome; no `ValidatorUnavailable`
distinction exists anywhere in the flow. -/
theorem c7_failures_conflated (text : String) (st : Store) (a b : String)
    (n : Int) (kindA kindB : ErrKind) (msgA msgB : String)
    (hs : startsWithSlash text = false)
    (hp : pySplitWs text = [a, b])
    (hn : pyInt a = some n) :
    credential_handler (fun _ _ => VOutcome.err kindA msgA) text st =
      credential_handler (fun _ _ => VOutcome.err kindB msgB) text st ∧
    (credential_handler (fun _ _ => VOutcome.err kindA msgA) text st).replies =
      ["Credentials received. Validating...",
       "Invalid API ID or API Hash. Please check them and try again."] := by
  have h1 := handler_rejected (fun _ _ => VOutcome.err kindA msgA) text st
    a b n kindA msgA hs hp hn rfl
  have h2 := handler_rejected (fun _ _ => VOutcome.err kindB msgB) text st
    a b n kindB msgB hs hp hn rfl
  rw [h1, h2]
  exact ⟨rfl, rfl⟩

/-- Witness for the amended C7 at the concrete submission
`"123456 deadbeef"`, comparing a transport failure with an
authentication failure. -/
theorem c7_witness :
    startsWithSlash "123456 deadbeef" = false ∧
    pySplitWs "123456 deadbeef" = ["123456", "deadbeef"] ∧
    pyInt "123456" = some 123456 ∧
    (credential_handler (fun _ _ => VOutcome.err ErrKind.transport "dns failure")
        "123456 deadbeef" none =
      credential_handler (fun _ _ => VOutcome.err ErrKind.auth "bad pair")
        "123456 deadbeef" none ∧
     (credential_handler (fun _ _ => VOutcome.err ErrKind.transport "dns failure")
        "123456 deadbeef" none).replies =
      ["Credentials received. Validating...",
       "Invalid API ID or API Hash. Please check them and try again."]) :=
  ⟨rfl, rfl, rfl,
   c7_failures_conflated "123456 deadbeef" none "123456" "deadbeef" 123456
     ErrKind.transport ErrKind.auth "dns failure" "bad pair" rfl rfl rfl⟩

/-- Counterexample for claim C8: an artifact that parses as JSON but
does not match the three-field schema (here the empty object) is
returned by `load_config` without any error — the claim's
"cannot be parsed as a well-formed record matching the three-field
schema" condition is not what the code checks. -/
theorem c8_schema_counterexample :
    load_config (some (Stored.wellFormed (Json.obj []))) =
      Except.ok (some (Json.obj [])) ∧
    matchesSpecSchema (Json.obj []) = false :=
  ⟨rfl, rfl⟩

/-- Claim C8 as amended: `load_config` returns absent when the artifact
does not exist, fails with `ConfigCorruptError` exactly when the
artifact exists but cannot be parsed as JSON, and returns any parseable
artifact as-is — it performs no validation against the three-field
schema. -/
theorem c8_load_config_amended :
    load_config none = Except.ok none ∧
    load_config (some Stored.corrupt) =
      Except.error ConfigError.configCorrupt ∧
    ∀ j : Json, load_config (some (Stored.wellFormed j)) =
      Except.ok (some j) :=
  ⟨rfl, rfl, fun _ => rfl⟩

/-- Claim C9: when no persisted Configuration exists and the operator
supplies a non-empty credential pair via the terminal path whose id
parses and which the Validator accepts, a Configuration with the
documented default `offline_message` is saved and the run proceeds to
start the Auto-Reply Service (rather than exiting). -/
theorem c9_terminal_setup_proceeds (bot_token api_id_str api_hash : String)
    (validate : Int → String → VOutcome) (n : Int)
    (hid : api_id_str.isEmpty = false)
    (hha : api_hash.isEmpty = false)
    (hn : pyInt api_id_str = some n)
    (hv : validate n api_hash = VOutcome.ok) :
    mainFlow none bot_token api_id_str api_hash validate =
      (MainOutcome.startsAutoReply
        (Config.toJson ⟨n, api_hash, defaultOfflineMessage⟩),
       save_config n api_hash defaultOfflineMessage) := by
  have h0 : mainFlow none bot_token api_id_str api_hash validate =
      mainSetup none bot_token api_id_str api_hash validate := rfl
  rw [h0]
  simp [mainSetup, hid, hha, hn, hv, save_config, load_config, Config.toJson]

/-- Witness for C9 at the spec's scenario input: `credential_id=123456`,
`credential_secret="0123456789abcdef0123456789abcdef"`, Validator ok. -/
theorem c9_witness :
    ("123456" : String).isEmpty = false ∧
    ("0123456789abcdef0123456789abcdef" : String).isEmpty = false ∧
    pyInt "123456" = some 123456 ∧
    (fun (_ : Int) (_ : String) => VOutcome.ok) 123456
      "0123456789abcdef0123456789abcdef" = VOutcome.ok ∧
    mainFlow none "bot-token" "123456" "0123456789abcdef0123456789abcdef"
      (fun _ _ => VOutcome.ok) =
      (MainOutcome.startsAutoReply (Config.toJson
        ⟨123456, "0123456789abcdef0123456789abcdef", defaultOfflineMessage⟩),
       save_config 123456 "0123456789abcdef0123456789abcdef"
         defaultOfflineMessage) :=
  ⟨rfl, rfl, rfl, rfl,
   c9_terminal_setup_proceeds "bot-token" "123456"
     "0123456789abcdef0123456789abcdef" (fun _ _ => VOutcome.ok) 123456
     rfl rfl rfl rfl⟩

/-- Claim C10 (implicit): for every incoming private non-self message,
if the in-memory configuration dict lacks an `offline_message` key,
`auto_reply` still replies, using the hard-coded fallback
"I am currently offline." instead of raising an error. -/
theorem c10_missing_key_fallback (config : List (String × Json))
    (senderName : String) (sendFailure : Option String)
    (h : dictGet config "offline_message" = none) :
    (auto_reply config sendFailure senderName).replyText =
      Json.str "I am currently offline." ∧
    (auto_reply config sendFailure senderName).raised = false ∧
    (auto_reply config none senderName).replySent = true := by
  have hc : dictGetD config "offline_message"
      (Json.str "I am currently offline.") =
      Json.str "I am currently offline." := by
    rw [dictGetD, h]; rfl
  cases sendFailure <;> simp [auto_reply, hc]

/-- Witness for C10 at a concrete schema-incomplete dict. -/
theorem c10_witness :
    dictGet [("api_id", Json.num 7)] "offline_message" = none ∧
    ((auto_reply [("api_id", Json.num 7)] none "alice").replyText =
      Json.str "I am currently offline." ∧
     (auto_reply [("api_id", Json.num 7)] none "alice").raised = false ∧
     (auto_reply [("api_id", Json.num 7)] none "alice").replySent = true) :=
  ⟨rfl, c10_missing_key_fallback [("api_id", Json.num 7)] "alice" none rfl⟩
